import Mathlib

/-!
Verification development for the background script of the
jira-action-items-chatbot browser extension
(`src/extension/background.js`).

The JavaScript functions are embedded shallowly: network effects
(`fetch`) are supplied as explicit outcome sequences, `chrome.storage`
as an explicit storage value, and the notification / popup / tab side
effects are collected into explicit effect records.  Async recursion is
modelled with fuel (`none` = did not return within the given fuel).
-/

namespace Background

/-- An HTTP response as seen by the script after `fetch` resolves:
its numeric status and the (already JSON-parsed) body, abstracted as a
string. A rejected `fetch` (network error) is an `Except.error`. -/
structure Resp where
  status : Nat
  body : String
deriving Repr, DecidableEq

/-- `response.ok` in the Fetch API: status in the range 200..299. -/
def respOk (r : Resp) : Bool :=
  decide (200 ≤ r.status) && decide (r.status < 300)

/-- The message of the error thrown on a non-ok response:
`Server responded with ${response.status}: ...`. The statusText part is
abstracted away. -/
def statusError (status : Nat) : String :=
  "Server responded with " ++ toString status

/-- Arguments of `handleApiRequest(endpoint, method, data)`. `data` is
the optional JSON payload (abstracted as a string). -/
structure Request where
  endpoint : String
  method : String
  data : Option String
deriving Repr, DecidableEq

/-- The body actually attached to the fetch `options`:
`if (data && (method === 'POST' || method === 'PUT')) options.body = ...`. -/
def sentBody (req : Request) : Option String :=
  if req.method = "POST" ∨ req.method = "PUT" then req.data else none

/-- One observable fetch attempt: the endpoint, method and body that
went over the wire. -/
structure SentRequest where
  endpoint : String
  method : String
  body : Option String
deriving Repr, DecidableEq

/-- The attempt that `handleApiRequest` issues for `req`. -/
def toSent (req : Request) : SentRequest :=
  ⟨req.endpoint, req.method, sentBody req⟩

/-- The environment of a run of `handleApiRequest`: the outcome of the
i-th fetch attempt (an `Except.error` models a rejected fetch), and the
result of the i-th `refreshAuth()` call (`refreshAuth` never throws:
it returns a boolean). -/
structure ApiEnv where
  fetch : Nat → Except String Resp
  refresh : Nat → Bool

/-- The observable trace of a run: every fetch attempt issued so far,
in order, and how many times `refreshAuth()` was called. -/
structure ApiState where
  attempts : List SentRequest
  refreshCalls : Nat
deriving Repr, DecidableEq

/-- Shallow embedding of `handleApiRequest(endpoint, method, data)`
(background.js lines 374–408).  On a non-ok response with status 401 it
calls `refreshAuth()`; if that returns true it re-enters itself with the
same `endpoint`, `method`, `data` — the recursion carries no retry
counter.  The fuel argument bounds the recursion depth; a result of
`none` means the call did not return within that many attempts. -/
def handleApiRequest (env : ApiEnv) (req : Request) :
    Nat → ApiState → Option (Except String String) × ApiState
  | 0, s => (none, s)
  | fuel + 1, s =>
    let i := s.attempts.length
    let s1 : ApiState := ⟨s.attempts ++ [toSent req], s.refreshCalls⟩
    match env.fetch i with
    | .error e => (some (.error e), s1)
    | .ok resp =>
      if respOk resp then (some (.ok resp.body), s1)
      else if resp.status = 401 then
        if env.refresh s1.refreshCalls then
          handleApiRequest env req fuel ⟨s1.attempts, s1.refreshCalls + 1⟩
        else (some (.error (statusError resp.status)), ⟨s1.attempts, s1.refreshCalls + 1⟩)
      else (some (.error (statusError resp.status)), s1)

/-- Environment of the C1 scenario: every fetch attempt yields HTTP 401
and every `refreshAuth()` call succeeds. -/
def env401 : ApiEnv :=
  ⟨fun _ => .ok ⟨401, ""⟩, fun _ => true⟩

/-- Environment of the C2 scenario: the first fetch attempt yields 401,
every later one yields 200 with body `b`; `refreshAuth()` succeeds. -/
def env401then200 (b : String) : ApiEnv :=
  ⟨fun i => if i = 0 then .ok ⟨401, ""⟩ else .ok ⟨200, b⟩, fun _ => true⟩

theorem handleApiRequest_env401_run (req : Request) :
    ∀ (fuel : Nat) (s : ApiState),
      handleApiRequest env401 req fuel s =
        (none, ⟨s.attempts ++ List.replicate fuel (toSent req), s.refreshCalls + fuel⟩) := by
  intro fuel
  induction fuel with
  | zero => intro s; simp [handleApiRequest]
  | succ n ih =>
    intro s
    have h := ih ⟨s.attempts ++ [toSent req], s.refreshCalls + 1⟩
    rw [handleApiRequest]
    simp only [env401] at h ⊢
    norm_num [respOk]
    rw [h]
    simp [List.replicate_succ]
    omega

/-- C1: the claim says a call whose every attempt receives 401, with
`refreshAuth()` always succeeding, makes exactly two total attempts.
The code instead re-enters `handleApiRequest` with no retry counter:
for every fuel bound the call has not returned yet and has already made
`fuel` fetch attempts, i.e. the retries are unbounded (the async
recursion never resolves). This evaluates the code at the claim's
failing input. -/
theorem handleApiRequest_always401_unbounded (req : Request) (fuel : Nat) :
    (handleApiRequest env401 req fuel ⟨[], 0⟩).1 = none ∧
    (handleApiRequest env401 req fuel ⟨[], 0⟩).2.attempts.length = fuel := by
  rw [handleApiRequest_env401_run]
  simp

/-- C2: if the first attempt returns 401 and the second returns 200 with
body `b`, and `refreshAuth()` succeeds, then `handleApiRequest` returns
the 200 body, exactly one refresh call is made, and exactly two fetch
attempts are issued, both with the identical endpoint, method and body
of the original request. -/
theorem handleApiRequest_401_then_200 (req : Request) (b : String) (n : Nat) :
    handleApiRequest (env401then200 b) req (n + 2) ⟨[], 0⟩ =
      (some (.ok b), ⟨[toSent req, toSent req], 1⟩) := by
  rw [handleApiRequest]
  norm_num [env401then200, respOk]
  rw [handleApiRequest]
  norm_num [env401then200, respOk]

/-! ## Session Manager (`checkAuthStatus`, `logout`) -/

/-- The slice of `chrome.storage.local` the auth code writes: the
durable `isAuthenticated` flag. -/
structure Storage where
  isAuthenticated : Bool
deriving Repr, DecidableEq

/-- The JSON payload of `GET /api/auth/status`: its `authenticated`
flag plus the rest of the payload, abstracted as a string, so that
"returns the full payload" is observable. -/
structure StatusPayload where
  authenticated : Bool
  rest : String
deriving Repr, DecidableEq

/-- A resolved response of the status endpoint: HTTP status and the
parsed payload. -/
structure AuthResp where
  status : Nat
  payload : StatusPayload
deriving Repr, DecidableEq

/-- What `checkAuthStatus` returns: either the full status payload, or
the fail-closed object `{ authenticated: false, error }`. -/
inductive AuthStatusResult where
  | payload (p : StatusPayload)
  | failure (error : String)
deriving Repr, DecidableEq

/-- The `authenticated` field of a `checkAuthStatus` result. -/
def authenticatedOf : AuthStatusResult → Bool
  | .payload p => p.authenticated
  | .failure _ => false

/-- Shallow embedding of `checkAuthStatus()` (background.js lines
466–493).  The fetch outcome is passed explicitly (`Except.error` for a
rejected fetch).  The function is total — the JS catch block turns every
thrown error into the fail-closed result — and returns the updated
durable storage alongside the result. -/
def checkAuthStatus (fetchOutcome : Except String AuthResp) (st : Storage) :
    AuthStatusResult × Storage :=
  match fetchOutcome with
  | .error e => (.failure e, ⟨false⟩)
  | .ok r =>
    if respOk ⟨r.status, ""⟩ then
      (.payload r.payload, ⟨r.payload.authenticated⟩)
    else
      (.failure (statusError r.status), ⟨false⟩)

/-- C3: `checkAuthStatus` never throws. On a 2xx response it mirrors the
payload's `authenticated` flag into durable storage and returns the full
payload; on a rejected fetch or a non-2xx response it writes `false` to
durable storage and returns the `{ authenticated: false, error }`
shape (whose `authenticated` field is false). -/
theorem checkAuthStatus_fail_closed :
    (∀ (e : String) (st : Storage),
        checkAuthStatus (.error e) st = (.failure e, ⟨false⟩)) ∧
    (∀ (r : AuthResp) (st : Storage), respOk ⟨r.status, ""⟩ = true →
        checkAuthStatus (.ok r) st =
          (.payload r.payload, ⟨r.payload.authenticated⟩)) ∧
    (∀ (r : AuthResp) (st : Storage), respOk ⟨r.status, ""⟩ = false →
        checkAuthStatus (.ok r) st =
          (.failure (statusError r.status), ⟨false⟩)) := by
  refine ⟨fun e _ => rfl, fun r st h => ?_, fun r st h => ?_⟩ <;>
    simp [checkAuthStatus, h]

/-- Witness for C3: concrete runs through the success branch (200,
authenticated payload) and the failure branch (503). -/
theorem checkAuthStatus_fail_closed_witness :
    checkAuthStatus (.ok ⟨200, ⟨true, "user"⟩⟩) ⟨false⟩ =
      (.payload ⟨true, "user"⟩, ⟨true⟩) ∧
    checkAuthStatus (.ok ⟨503, ⟨true, "user"⟩⟩) ⟨true⟩ =
      (.failure (statusError 503), ⟨false⟩) :=
  ⟨checkAuthStatus_fail_closed.2.1 ⟨200, ⟨true, "user"⟩⟩ ⟨false⟩ (by decide),
   checkAuthStatus_fail_closed.2.2 ⟨503, ⟨true, "user"⟩⟩ ⟨true⟩ (by decide)⟩

/-- Shallow embedding of `logout()` (background.js lines 444–463).  The
fetch outcome of `GET /api/auth/logout` is passed explicitly; note the
code never inspects the response's status, so any resolved fetch reaches
the storage write, while a rejected fetch rethrows from the catch
block. -/
def logout (fetchOutcome : Except String Resp) (st : Storage) :
    Except String String × Storage :=
  match fetchOutcome with
  | .error e => (.error e, st)
  | .ok _ => (.ok "Logged out successfully", ⟨false⟩)

/-- C8: when the remote logout call throws, `logout` propagates the
error and leaves the durable `isAuthenticated` flag exactly as it was;
the flag is written (to `false`) only on the path where the remote call
returned. -/
theorem logout_error_path :
    (∀ (e : String) (st : Storage), logout (.error e) st = (.error e, st)) ∧
    (∀ (r : Resp) (st : Storage),
        logout (.ok r) st = (.ok "Logged out successfully", ⟨false⟩)) :=
  ⟨fun _ _ => rfl, fun _ _ => rfl⟩

/-! ## Reminder pipeline (`checkReminders`, notification queue) -/

/-- A reminder as delivered by `/api/reminders/check` and consumed by
`showReminderNotification`. -/
structure Reminder where
  key : String
  title : String
  message : String
  priority : String
  status : String
  actions : List String
deriving Repr, DecidableEq

/-- The result object of `/api/reminders/check`. -/
structure RemindersResult where
  reminders : List Reminder
  count : Nat
deriving Repr, DecidableEq

/-- Shallow embedding of `checkReminders()` (background.js lines
116–164).  Inputs: the `checkAuthStatus` result, the
`notificationsEnabled` preference read from storage, the outcome of the
`/api/reminders/check` call, and the current notification queue.
Output: the returned value (or propagated error), the updated queue, and
how many calls to the reminder-check endpoint were issued. -/
def checkReminders (authStatus : AuthStatusResult) (notificationsEnabled : Bool)
    (apiOutcome : Except String RemindersResult) (queue : List Reminder) :
    Except String RemindersResult × List Reminder × Nat :=
  if authenticatedOf authStatus = false then
    (.ok ⟨[], 0⟩, queue, 0)
  else if notificationsEnabled = false then
    (.ok ⟨[], 0⟩, queue, 0)
  else
    match apiOutcome with
    | .error e => (.error e, queue, 1)
    | .ok r => (.ok r, queue ++ r.reminders, 1)

/-- C4: a poll cycle that finds the session unauthenticated, or the
`notificationsEnabled` preference off, returns
`{ reminders: [], count: 0 }` without throwing, issues zero calls to the
reminder-check endpoint and leaves the queue untouched. -/
theorem checkReminders_noop (authStatus : AuthStatusResult)
    (notificationsEnabled : Bool) (apiOutcome : Except String RemindersResult)
    (queue : List Reminder)
    (h : authenticatedOf authStatus = false ∨ notificationsEnabled = false) :
    checkReminders authStatus notificationsEnabled apiOutcome queue =
      (.ok ⟨[], 0⟩, queue, 0) := by
  rcases h with h | h <;> simp [checkReminders, h]

/-- Witness for C4: a concrete cycle with an authenticated session but
notifications disabled is a no-op even though the endpoint would have
answered. -/
theorem checkReminders_noop_witness :
    (authenticatedOf (.payload ⟨true, "u"⟩) = false ∨ false = false) ∧
    checkReminders (.payload ⟨true, "u"⟩) false
        (.ok ⟨[⟨"PROJ-1", "t", "m", "High", "Open", ["Done"]⟩], 1⟩) [] =
      (.ok ⟨[], 0⟩, [], 0) :=
  ⟨Or.inr rfl,
    checkReminders_noop (.payload ⟨true, "u"⟩) false
      (.ok ⟨[⟨"PROJ-1", "t", "m", "High", "Open", ["Done"]⟩], 1⟩) [] (Or.inr rfl)⟩

/-- One step of the display loop `processNotificationQueue`
(background.js lines 167–185): `shift()` the head of the queue (the
reminder shown next) and keep the tail. -/
def processNotificationQueueStep (q : List Reminder) : Option Reminder × List Reminder :=
  match q with
  | [] => (none, [])
  | r :: rest => (some r, rest)

/-- An event touching the notification queue: a poll cycle appending the
reminders it found (`notificationQueue = notificationQueue.concat(...)`,
line 149), or the display loop popping one reminder (line 176). -/
inductive QueueEvent where
  | poll (rs : List Reminder)
  | pop
deriving Repr, DecidableEq

/-- Effect of one event on the queue. -/
def stepQueue (q : List Reminder) : QueueEvent → List Reminder
  | .poll rs => q ++ rs
  | .pop => (processNotificationQueueStep q).2

/-- The queue after a sequence of events, starting empty. -/
def runQueue (es : List QueueEvent) : List Reminder :=
  es.foldl stepQueue []

/-- Concatenation, in order, of the reminder lists delivered by the
polls of an event sequence. -/
def polled : List QueueEvent → List Reminder
  | [] => []
  | .poll rs :: es => rs ++ polled es
  | .pop :: es => polled es

/-- Number of pops in an event sequence. -/
def popCount : List QueueEvent → Nat
  | [] => 0
  | .poll _ :: es => popCount es
  | .pop :: es => popCount es + 1

/-- A run is valid when every pop happens on a nonempty queue — the
display loop only shifts after checking `notificationQueue.length`
(line 168). -/
def validFrom (q : List Reminder) : List QueueEvent → Bool
  | [] => true
  | .poll rs :: es => validFrom (q ++ rs) es
  | .pop :: es => !q.isEmpty && validFrom (processNotificationQueueStep q).2 es

theorem validFrom_foldl (es : List QueueEvent) :
    ∀ (q : List Reminder), validFrom q es = true →
      es.foldl stepQueue q = (q ++ polled es).drop (popCount es) := by
  induction es with
  | nil => intro q _; simp [polled, popCount]
  | cons e es ih =>
    intro q hv
    cases e with
    | poll rs =>
      simp only [validFrom] at hv
      simp only [List.foldl_cons, stepQueue, polled, popCount]
      rw [ih _ hv, List.append_assoc]
    | pop =>
      simp only [validFrom, Bool.and_eq_true, Bool.not_eq_true'] at hv
      obtain ⟨hq, hv⟩ := hv
      cases q with
      | nil => simp [List.isEmpty] at hq
      | cons r rest =>
        simp only [processNotificationQueueStep] at hv
        simp only [List.foldl_cons, stepQueue, processNotificationQueueStep,
          polled, popCount]
        rw [ih _ hv]
        simp [List.drop_succ_cons]

/-- C5 (FIFO law): after any valid sequence of poll and display events,
the notification queue holds exactly the concatenation, in first-seen
order, of the reminder lists returned by the polls, minus the prefix
already popped by the display loop. -/
theorem notificationQueue_fifo (es : List QueueEvent)
    (h : validFrom [] es = true) :
    runQueue es = (polled es).drop (popCount es) := by
  rw [runQueue, validFrom_foldl es [] h]
  simp

/-- A concrete reminder for witnesses. -/
def sampleReminder (k : String) : Reminder :=
  ⟨k, "title", "msg", "High", "Open", ["Done", "View"]⟩

/-- Witness for C5: two polls with one display pop in between leave
the first poll's second reminder and the second poll's reminder, in
first-seen order. -/
theorem notificationQueue_fifo_witness :
    validFrom []
        [QueueEvent.poll [sampleReminder "A", sampleReminder "B"],
         QueueEvent.pop, QueueEvent.poll [sampleReminder "C"]] = true ∧
    runQueue
        [QueueEvent.poll [sampleReminder "A", sampleReminder "B"],
         QueueEvent.pop, QueueEvent.poll [sampleReminder "C"]] =
      [sampleReminder "B", sampleReminder "C"] :=
  ⟨by decide,
    (notificationQueue_fifo
      [QueueEvent.poll [sampleReminder "A", sampleReminder "B"],
       QueueEvent.pop, QueueEvent.poll [sampleReminder "C"]]
      (by decide)).trans (by decide)⟩

/-! ## Notification display and action routing -/

/-- The fields passed to `chrome.notifications.create`. -/
structure NotificationSpec where
  title : String
  message : String
  contextMessage : String
  buttons : List String
  requireInteraction : Bool
deriving Repr, DecidableEq

/-- The Reply augmentation (background.js lines 197–199):
`if (!reminder.actions.includes('Reply')) reminder.actions.push('Reply')`. -/
def augmentActions (as : List String) : List String :=
  if as.contains "Reply" then as else as ++ ["Reply"]

/-- Everything `showReminderNotification` produces. -/
structure ShowResult where
  notificationId : String
  stored : Reminder
  augmented : Reminder
  notification : NotificationSpec
deriving Repr, DecidableEq

/-- Shallow embedding of `showReminderNotification(reminder)`
(background.js lines 188–211).  `now` stands for `Date.now()`.  The
call to `chrome.storage.local.set` serializes its argument when the API
call is made, which happens *before* the Reply augmentation, so the
stored record keeps the un-augmented actions; the notification's
buttons are the first two augmented actions (`actions.slice(0, 2)`). -/
def showReminderNotification (r : Reminder) (now : Nat) : ShowResult :=
  let nid := "reminder-" ++ r.key ++ "-" ++ toString now
  let stored := r
  let augmented : Reminder := { r with actions := augmentActions r.actions }
  ⟨nid, stored, augmented,
    ⟨r.key ++ ": " ++ r.title, r.message,
      "Priority: " ++ r.priority ++ " | Status: " ++ r.status,
      augmented.actions.take 2, true⟩⟩

/-- C6: after `showReminderNotification`, the reminder's actions list
contains `Reply` (appended when absent from the source payload) and the
notification's buttons are exactly the first two augmented actions; for
a reminder with source actions `["Done", "View"]` the augmented list
has exactly three actions and the buttons are `Done` and `View`. -/
theorem showReminderNotification_reply_augmented :
    (∀ (r : Reminder) (now : Nat),
        "Reply" ∈ (showReminderNotification r now).augmented.actions ∧
        (showReminderNotification r now).notification.buttons =
          (augmentActions r.actions).take 2) ∧
    (∀ (r : Reminder) (now : Nat), r.actions = ["Done", "View"] →
        (showReminderNotification r now).augmented.actions.length = 3 ∧
        (showReminderNotification r now).notification.buttons =
          ["Done", "View"]) := by
  constructor
  · intro r now
    refine ⟨?_, rfl⟩
    simp only [showReminderNotification, augmentActions]
    split
    · next h => exact List.mem_of_elem_eq_true h
    · simp
  · intro r now h
    simp [showReminderNotification, augmentActions, h]

/-- Witness for C6: the Scenario B reminder. -/
theorem showReminderNotification_reply_augmented_witness :
    (showReminderNotification (sampleReminder "PROJ-1") 0).augmented.actions.length = 3 ∧
    (showReminderNotification (sampleReminder "PROJ-1") 0).notification.buttons =
      ["Done", "View"] :=
  showReminderNotification_reply_augmented.2 (sampleReminder "PROJ-1") 0 rfl

/-- The window `showReplyPopup(notificationId, issueKey)` creates
(background.js lines 277–286). -/
structure PopupSpec where
  url : String
  width : Nat
  height : Nat
  focused : Bool
deriving Repr, DecidableEq

/-- Shallow embedding of `showReplyPopup`. -/
def showReplyPopup (notificationId issueKey : String) : PopupSpec :=
  ⟨"popup/reply.html?id=" ++ notificationId ++ "&key=" ++ issueKey,
    400, 200, true⟩

/-- A remote call issued by `handleNotificationAction`: endpoint,
method, and the JSON body's fields (`issue_key`, optional `days`). -/
structure ApiCall where
  endpoint : String
  method : String
  issue_key : String
  days : Option Nat
deriving Repr, DecidableEq

/-- The side effects of one `handleNotificationAction` run. -/
structure ActionEffects where
  apiCalls : List ApiCall
  clearedNotifications : List String
  popupsOpened : List PopupSpec
  tabsOpened : List String
deriving Repr, DecidableEq

/-- Shallow embedding of
`handleNotificationAction(notificationId, action, issueKey)`
(background.js lines 235–274).  `action` is an `Option` because the
button-click handler can look up an out-of-range index, yielding
`undefined`.  `apiOutcome` is the outcome of the remote call on the
`Done`/`Snooze` branches (an `Except.error` rethrows before the
notification is cleared); `baseUrl` is the server URL with `/api`
stripped, used by the `View` branch.  The returned value is the
`{ success: true, action }` object or the propagated error. -/
def handleNotificationAction (notificationId : String) (action : Option String)
    (issueKey : String) (baseUrl : String) (apiOutcome : Except String Unit) :
    Except String (Bool × Option String) × ActionEffects :=
  match action with
  | some "Done" =>
    let call : ApiCall := ⟨"/api/reminders/mark-done", "POST", issueKey, none⟩
    match apiOutcome with
    | .error e => (.error e, ⟨[call], [], [], []⟩)
    | .ok _ => (.ok (true, action), ⟨[call], [notificationId], [], []⟩)
  | some "Snooze" =>
    let call : ApiCall := ⟨"/api/reminders/snooze", "POST", issueKey, some 1⟩
    match apiOutcome with
    | .error e => (.error e, ⟨[call], [], [], []⟩)
    | .ok _ => (.ok (true, action), ⟨[call], [notificationId], [], []⟩)
  | some "View" =>
    (.ok (true, action), ⟨[], [notificationId], [],
      [baseUrl ++ "/browse/" ++ issueKey]⟩)
  | some "Reply" =>
    (.ok (true, action),
      ⟨[], [], [showReplyPopup notificationId issueKey], []⟩)
  | _ => (.ok (true, action), ⟨[], [notificationId], [], []⟩)

/-- C7: the `Reply` action never clears the notification: it opens a
popup window whose URL carries the notification id and issue key,
issues no remote call, and returns the success result immediately. -/
theorem handleNotificationAction_reply (notificationId issueKey baseUrl : String)
    (apiOutcome : Except String Unit) :
    handleNotificationAction notificationId (some "Reply") issueKey baseUrl apiOutcome =
      (.ok (true, some "Reply"),
        ⟨[], [], [⟨"popup/reply.html?id=" ++ notificationId ++ "&key=" ++ issueKey,
          400, 200, true⟩], []⟩) :=
  rfl

/-- C9: a `Snooze` action whose remote call succeeds issues exactly one
`POST /api/reminders/snooze` with body `{ issue_key, days: 1 }` and then
clears the notification, returning the success result. -/
theorem handleNotificationAction_snooze (notificationId issueKey baseUrl : String) :
    handleNotificationAction notificationId (some "Snooze") issueKey baseUrl (.ok ()) =
      (.ok (true, some "Snooze"),
        ⟨[⟨"/api/reminders/snooze", "POST", issueKey, some 1⟩],
          [notificationId], [], []⟩) :=
  rfl

/-- Shallow embedding of the `chrome.notifications.onButtonClicked`
handler (background.js lines 214–232): it reads the *stored* reminder
back from storage, indexes its actions list with the clicked button's
index (out of range yields `undefined`, i.e. `none`), and routes the
result through `handleNotificationAction`. -/
def onButtonClicked (stored : Reminder) (notificationId : String)
    (buttonIndex : Nat) (baseUrl : String) (apiOutcome : Except String Unit) :
    Except String (Bool × Option String) × ActionEffects :=
  handleNotificationAction notificationId (stored.actions.get? buttonIndex)
    stored.key baseUrl apiOutcome

/-- C10: the reminder record is persisted *before* the Reply
augmentation, so the stored actions are the un-augmented source list.
For a reminder with exactly one source action (other than `Reply`), the
notification still shows two buttons — the source action and the
auto-added `Reply` — but a click on that second button looks up index 1
in the stored one-element list, gets no defined action, and falls
through the action switch: the notification is cleared and no reply
popup opens. -/
theorem storedReminder_stale_on_reply_click (r : Reminder) (a : String)
    (now : Nat) (baseUrl : String) (apiOutcome : Except String Unit)
    (hact : r.actions = [a]) (hne : a ≠ "Reply") :
    (showReminderNotification r now).stored.actions = [a] ∧
    (showReminderNotification r now).notification.buttons = [a, "Reply"] ∧
    onButtonClicked (showReminderNotification r now).stored
        (showReminderNotification r now).notificationId 1 baseUrl apiOutcome =
      (.ok (true, none),
        ⟨[], [(showReminderNotification r now).notificationId], [], []⟩) := by
  refine ⟨by simp [showReminderNotification, hact], ?_, ?_⟩
  · simp [showReminderNotification, augmentActions, hact, Ne.symm hne]
  · simp [onButtonClicked, showReminderNotification, hact,
      handleNotificationAction]

/-- Witness for C10: a reminder whose only source action is `Done`.
Clicking the auto-added second button clears the notification and opens
no popup. -/
theorem storedReminder_stale_on_reply_click_witness :
    (⟨"PROJ-2", "t", "m", "High", "Open", ["Done"]⟩ : Reminder).actions = ["Done"] ∧
    onButtonClicked
        (showReminderNotification ⟨"PROJ-2", "t", "m", "High", "Open", ["Done"]⟩ 0).stored
        (showReminderNotification ⟨"PROJ-2", "t", "m", "High", "Open", ["Done"]⟩ 0).notificationId
        1 "http://localhost:8000" (.ok ()) =
      (.ok (true, none),
        ⟨[], [(showReminderNotification
          ⟨"PROJ-2", "t", "m", "High", "Open", ["Done"]⟩ 0).notificationId], [], []⟩) :=
  ⟨rfl,
    (storedReminder_stale_on_reply_click
      ⟨"PROJ-2", "t", "m", "High", "Open", ["Done"]⟩ "Done" 0
      "http://localhost:8000" (.ok ()) rfl (by decide)).2.2⟩

end Background
